import Mathlib

/-!
Verification of the `hetzner_app` repository: a curses service menu
(`src/scripts/service_menu.py`) and a standalone Caddyfile test
(`src/tests/test_caddyfile.py`).

The Python code is shallowly embedded:

* The operating system's behaviour when spawning a child process is a
  parameter `sys : List String → ExecOutcome`: a command either runs and
  exits with a status code, or its executable is not found.
* `subprocess.run(command, check=True)` and `run_command` become functions
  into `Except PyError _`; an `.error` value models an uncaught Python
  exception propagating to the caller, and the `.ok` payload of
  `run_command` collects the lines it printed.
* The `run_menu` loop becomes a key-consuming step function
  `menuLoopStep` on `LoopState` (menu list, `current_row`, and whether the
  loop is blocked on the inner `getch()` at the "Press any key" prompt),
  plus `run_menu_keys`, which folds the step over a list of key codes.
  Screen operations are recorded as an explicit `Effect` trace.
-/

namespace ServiceMenu

/-- Outcome of the operating system attempting to run an argv-style command:
the child runs and exits with a status code, or the executable is missing. -/
inductive ExecOutcome where
  | exited (code : Nat)
  | notFound
deriving DecidableEq

/-- Python exceptions that can propagate in the embedded code. -/
inductive PyError where
  | calledProcessError (returncode : Nat) (cmd : List String)
  | fileNotFoundError
  | indexError
  | assertionError
deriving DecidableEq

/-- Python `repr` of a simple string: wrapped in single quotes. -/
def pyStrRepr (s : String) : String := "\x27" ++ s ++ "\x27"

/-- Python `str` of a list of strings, as produced by `"%s" % cmd`. -/
def pyListRepr (xs : List String) : String :=
  "[" ++ String.intercalate ", " (xs.map pyStrRepr) ++ "]"

/-- `str(subprocess.CalledProcessError(returncode, cmd))` for a non-negative
exit status: `Command '<cmd>' returned non-zero exit status <returncode>.` -/
def cpeStr (returncode : Nat) (cmd : List String) : String :=
  "Command \x27" ++ pyListRepr cmd ++ "\x27 returned non-zero exit status "
    ++ toString returncode ++ "."

/-- `subprocess.run(command, check=True)`: raises `FileNotFoundError` when the
executable is missing, raises `CalledProcessError` on a non-zero exit status,
and returns normally on a zero exit status. -/
def subprocess_run_check (sys : List String → ExecOutcome) (command : List String) :
    Except PyError Unit :=
  match sys command with
  | .notFound => .error .fileNotFoundError
  | .exited c => if c = 0 then .ok () else .error (.calledProcessError c command)

/-- `run_command` from `service_menu.py`: run the command, catching only
`CalledProcessError` and printing `Command failed: {exc}` for it.  The `.ok`
payload is the list of printed lines; any other exception propagates. -/
def run_command (sys : List String → ExecOutcome) (command : List String) :
    Except PyError (List String) :=
  match subprocess_run_check sys command with
  | .ok () => .ok []
  | .error (.calledProcessError c cmd) => .ok ["Command failed: " ++ cpeStr c cmd]
  | .error e => .error e

/-- A zero-argument menu action: every non-Exit action in `service_menu.py`
is a call `run_command [...]`, and the Exit action is `lambda: None`. -/
inductive MenuAction where
  | runCmd (command : List String)
  | noop
deriving DecidableEq

/-- Execute a menu action against the operating system model. -/
def MenuAction.exec (a : MenuAction) (sys : List String → ExecOutcome) :
    Except PyError (List String) :=
  match a with
  | .runCmd command => run_command sys command
  | .noop => .ok []

def generate_tls : MenuAction := .runCmd ["echo", "Generating TLS certificates..."]

def setup_supabase_extras : MenuAction := .runCmd ["echo", "Setting up Supabase extras..."]

def start_langfuse : MenuAction :=
  .runCmd ["echo", "docker run -d --name langfuse langfuse/langfuse:latest"]

def start_neo4j : MenuAction :=
  .runCmd ["echo", "docker run -d --name neo4j neo4j:latest"]

def start_weaviate : MenuAction :=
  .runCmd ["echo", "docker run -d --name weaviate semitechnologies/weaviate:latest"]

def start_qdrant : MenuAction :=
  .runCmd ["echo", "docker run -d --name qdrant qdrant/qdrant:latest"]

def start_postgres : MenuAction :=
  .runCmd ["echo",
    "docker run -d --name postgres -e POSTGRES_PASSWORD=postgres postgres:latest"]

def start_pgvector : MenuAction :=
  .runCmd ["echo", "docker run -d --name pgvector ankane/pgvector:latest"]

def start_sentry : MenuAction :=
  .runCmd ["echo", "docker run -d --name sentry getsentry/sentry:latest"]

def start_openhands : MenuAction :=
  .runCmd ["echo", "docker run -d --name openhands openhands/openhands:latest"]

def start_archon : MenuAction :=
  .runCmd ["echo", "docker run -d --name archon archon/archon:latest"]

def start_agent_zero : MenuAction :=
  .runCmd ["echo", "docker run -d --name agent_zero agentzero/agent-zero:latest"]

/-- A menu item: a display label paired with a zero-argument action. -/
structure MenuItem where
  label : String
  action : MenuAction
deriving DecidableEq

/-- `_build_menu` from `service_menu.py`: the fixed ordered list of items. -/
def _build_menu : List MenuItem :=
  [⟨"Generate TLS certificates", generate_tls⟩,
   ⟨"Install Supabase extras", setup_supabase_extras⟩,
   ⟨"Start Langfuse container", start_langfuse⟩,
   ⟨"Start Neo4j container", start_neo4j⟩,
   ⟨"Start Weaviate container", start_weaviate⟩,
   ⟨"Start Qdrant container", start_qdrant⟩,
   ⟨"Start PostgreSQL container", start_postgres⟩,
   ⟨"Start pgvector container", start_pgvector⟩,
   ⟨"Start Sentry container", start_sentry⟩,
   ⟨"Start OpenHands container", start_openhands⟩,
   ⟨"Start Archon container", start_archon⟩,
   ⟨"Start Agent-Zero container", start_agent_zero⟩,
   ⟨"Exit", .noop⟩]

/-- `curses.KEY_UP`. -/
def KEY_UP : Int := 259

/-- `curses.KEY_DOWN`. -/
def KEY_DOWN : Int := 258

/-- `curses.KEY_ENTER`. -/
def KEY_ENTER : Int := 343

/-- Python list indexing `xs[i]` for `int` indices: non-negative indices are
zero-based, negative indices count from the end, anything else raises
`IndexError` (modelled by `none`). -/
def pyIndex {α : Type} (xs : List α) (i : Int) : Option α :=
  let n : Int := xs.length
  let j := if i < 0 then i + n else i
  if 0 ≤ j ∧ j < n then xs[j.toNat]? else none

/-- Observable terminal operations performed by one step of the loop. -/
inductive Effect where
  | drawMenu (row : Int)
  | getKey
  | clearScreen
  | addstr (y x : Nat) (s : String)
  | refreshScreen
  | invokeAction (row : Int)
deriving DecidableEq

/-- State of the `run_menu` loop: the item list, the selected row, and
whether the loop is blocked on the inner `getch()` at the
"Press any key to return to menu" prompt. -/
structure LoopState where
  menu : List MenuItem
  current_row : Int
  awaitingAck : Bool
deriving DecidableEq

/-- One key-consuming step of the `run_menu` loop.  In the displaying state
the loop draws the menu, reads `key`, and dispatches exactly as the Python
`while` body does; when `awaitingAck` is set the key is the discarded
acknowledgment read.  The result carries the next state, whether the loop
exited (`break`), the index whose action was invoked, and the effect trace;
`.error` models an uncaught exception escaping `run_menu`. -/
def menuLoopStep (sys : List String → ExecOutcome) (s : LoopState) (key : Int) :
    Except PyError (LoopState × Bool × Option Int × List Effect) :=
  if s.awaitingAck then
    .ok ({ s with awaitingAck := false }, false, none, [.getKey])
  else if key = KEY_UP ∧ s.current_row > 0 then
    .ok ({ s with current_row := s.current_row - 1 }, false, none,
      [.drawMenu s.current_row, .getKey])
  else if key = KEY_DOWN ∧ s.current_row < (s.menu.length : Int) - 1 then
    .ok ({ s with current_row := s.current_row + 1 }, false, none,
      [.drawMenu s.current_row, .getKey])
  else if key = KEY_ENTER ∨ key = 10 then
    match pyIndex s.menu s.current_row with
    | none => .error .indexError
    | some item =>
      if item.label = "Exit" then
        .ok (s, true, none, [.drawMenu s.current_row, .getKey])
      else
        match item.action.exec sys with
        | .error e => .error e
        | .ok _ =>
          .ok ({ s with awaitingAck := true }, false, some s.current_row,
            [.drawMenu s.current_row, .getKey, .clearScreen,
             .addstr 0 0 ("Running: " ++ item.label ++ "\n"), .refreshScreen,
             .invokeAction s.current_row,
             .addstr 2 0 "Press any key to return to menu"])
  else if key = 27 then
    .ok (s, true, none, [.drawMenu s.current_row, .getKey])
  else
    .ok (s, false, none, [.drawMenu s.current_row, .getKey])

/-- Run the `run_menu` loop over a list of pending key codes, accumulating
the indices whose actions were invoked, until the keys run out, the loop
breaks, or an exception escapes. -/
def run_menu_keys (sys : List String → ExecOutcome) :
    LoopState → List Int → Except PyError (LoopState × Bool × List Int)
  | s, [] => .ok (s, false, [])
  | s, key :: ks =>
    match menuLoopStep sys s key with
    | .error e => .error e
    | .ok (s2, ex, inv, _) =>
      if ex then .ok (s2, true, [])
      else
        match run_menu_keys sys s2 ks with
        | .error e => .error e
        | .ok (s3, ex2, invs) => .ok (s3, ex2, inv.toList ++ invs)

/-- The initial state of `run_menu`: the built menu, row 0, displaying. -/
def run_menu_init : LoopState := ⟨_build_menu, 0, false⟩

/-- Python substring test `needle in hay`, scanning left to right. -/
def pyInStr (needle : List Char) : List Char → Bool
  | [] => needle.isEmpty
  | c :: rest => needle.isPrefixOf (c :: rest) || pyInStr needle rest

/-- `test_caddyfile_uses_cloudflare_dns` from `src/tests/test_caddyfile.py`:
read the file named `Caddyfile` from the file system `fs` and assert that its
text contains the substring `dns cloudflare`.  A missing file raises
`FileNotFoundError`; a failed assertion raises `AssertionError`. -/
def test_caddyfile_uses_cloudflare_dns (fs : String → Option String) :
    Except PyError Unit :=
  match fs "Caddyfile" with
  | none => .error .fileNotFoundError
  | some contents =>
    if pyInStr "dns cloudflare".data contents.data then .ok ()
    else .error .assertionError

/-- An operating system model on which every command exits with status 0. -/
def sysOk : List String → ExecOutcome := fun _ => .exited 0

/-- An operating system model on which every executable is missing. -/
def sysNotFound : List String → ExecOutcome := fun _ => .notFound

/-- An operating system model on which every command exits with status 1. -/
def sysFail : List String → ExecOutcome := fun _ => .exited 1

end ServiceMenu

namespace ServiceMenu

theorem menuLoopStep_menu_eq (sys : List String → ExecOutcome) (s : LoopState) (key : Int)
    (s2 : LoopState) (ex : Bool) (inv : Option Int) (eff : List Effect)
    (h : menuLoopStep sys s key = .ok (s2, ex, inv, eff)) :
    s2.menu = s.menu := by
  unfold menuLoopStep at h
  split_ifs at h with hAck hUp hDown hEnter hEsc <;>
    try (cases h; rfl)
  split at h
  · exact Except.noConfusion h
  · split_ifs at h with hExit
    · cases h; rfl
    · split at h
      · exact Except.noConfusion h
      · cases h; rfl

theorem menuLoopStep_bounds (sys : List String → ExecOutcome) (s : LoopState) (key : Int)
    (s2 : LoopState) (ex : Bool) (inv : Option Int) (eff : List Effect)
    (h0 : 0 ≤ s.current_row) (h1 : s.current_row < (s.menu.length : Int))
    (h : menuLoopStep sys s key = .ok (s2, ex, inv, eff)) :
    0 ≤ s2.current_row ∧ s2.current_row < (s.menu.length : Int) := by
  unfold menuLoopStep at h
  split_ifs at h with hAck hUp hDown hEnter hEsc
  · cases h; exact ⟨h0, h1⟩
  · cases h
    refine ⟨?_, ?_⟩ <;> dsimp only <;> omega
  · cases h
    refine ⟨?_, ?_⟩ <;> dsimp only <;> omega
  · split at h
    · exact Except.noConfusion h
    · split_ifs at h with hExit
      · cases h; exact ⟨h0, h1⟩
      · split at h
        · exact Except.noConfusion h
        · cases h; exact ⟨h0, h1⟩
  · cases h; exact ⟨h0, h1⟩
  · cases h; exact ⟨h0, h1⟩

theorem run_menu_keys_menu_eq (sys : List String → ExecOutcome) (ks : List Int) :
    ∀ (s s2 : LoopState) (ex : Bool) (inv : List Int),
      run_menu_keys sys s ks = .ok (s2, ex, inv) → s2.menu = s.menu := by
  induction ks with
  | nil =>
    intro s s2 ex inv h
    rw [run_menu_keys] at h
    cases h; rfl
  | cons key ks ih =>
    intro s s2 ex inv h
    rw [run_menu_keys] at h
    rcases hstep : menuLoopStep sys s key with e | ⟨sm, exm, invm, effm⟩ <;>
      rw [hstep] at h <;> dsimp only at h
    · exact Except.noConfusion h
    · have hm := menuLoopStep_menu_eq sys s key sm exm invm effm hstep
      cases exm with
      | true =>
        try dsimp only at h
        cases h
        exact hm
      | false =>
        try dsimp only at h
        rcases hr : run_menu_keys sys sm ks with e | ⟨s3, ex2, invs⟩ <;>
          rw [hr] at h <;> dsimp only at h
        · exact Except.noConfusion h
        · cases h
          exact (ih sm _ _ _ hr).trans hm

theorem run_menu_keys_bounds (sys : List String → ExecOutcome) (ks : List Int) :
    ∀ (s s2 : LoopState) (ex : Bool) (inv : List Int),
      0 ≤ s.current_row → s.current_row < (s.menu.length : Int) →
      run_menu_keys sys s ks = .ok (s2, ex, inv) →
      0 ≤ s2.current_row ∧ s2.current_row < (s.menu.length : Int) := by
  induction ks with
  | nil =>
    intro s s2 ex inv h0 h1 h
    rw [run_menu_keys] at h
    cases h; exact ⟨h0, h1⟩
  | cons key ks ih =>
    intro s s2 ex inv h0 h1 h
    rw [run_menu_keys] at h
    rcases hstep : menuLoopStep sys s key with e | ⟨sm, exm, invm, effm⟩ <;>
      rw [hstep] at h <;> dsimp only at h
    · exact Except.noConfusion h
    · have hm := menuLoopStep_menu_eq sys s key sm exm invm effm hstep
      have hb := menuLoopStep_bounds sys s key sm exm invm effm h0 h1 hstep
      cases exm with
      | true =>
        try dsimp only at h
        cases h
        exact hb
      | false =>
        try dsimp only at h
        rcases hr : run_menu_keys sys sm ks with e | ⟨s3, ex2, invs⟩ <;>
          rw [hr] at h <;> dsimp only at h
        · exact Except.noConfusion h
        · cases h
          have hres := ih sm _ _ _ hb.1 (by rw [hm]; exact hb.2) hr
          rw [hm] at hres
          exact hres

end ServiceMenu

namespace ServiceMenu

/-- Claim C1: in the displaying state, the Up key decrements the selection by
one exactly when it is positive, the Down key increments it by one exactly
when it is below the last index, and over any sequence of key presses the
selection index stays within `[0, length - 1]`. -/
theorem claim1_up_down_bounds (sys : List String → ExecOutcome)
    (menu : List MenuItem) (row : Int) (_hn : 1 ≤ menu.length)
    (h0 : 0 ≤ row) (h1 : row < (menu.length : Int)) :
    menuLoopStep sys ⟨menu, row, false⟩ KEY_UP =
      .ok (⟨menu, if 0 < row then row - 1 else row, false⟩, false, none,
        [.drawMenu row, .getKey]) ∧
    menuLoopStep sys ⟨menu, row, false⟩ KEY_DOWN =
      .ok (⟨menu, if row < (menu.length : Int) - 1 then row + 1 else row, false⟩,
        false, none, [.drawMenu row, .getKey]) ∧
    ∀ (ks : List Int) (s2 : LoopState) (ex : Bool) (inv : List Int),
      run_menu_keys sys ⟨menu, row, false⟩ ks = .ok (s2, ex, inv) →
      0 ≤ s2.current_row ∧ s2.current_row < (menu.length : Int) := by
  refine ⟨?_, ?_, ?_⟩
  · by_cases hp : 0 < row <;>
      simp [menuLoopStep, KEY_UP, KEY_DOWN, KEY_ENTER, hp]
  · by_cases hp : row < (menu.length : Int) - 1 <;>
      simp [menuLoopStep, KEY_UP, KEY_DOWN, KEY_ENTER, hp]
  · intro ks s2 ex inv h
    exact run_menu_keys_bounds sys ks ⟨menu, row, false⟩ s2 ex inv h0 h1 h

/-- Witness for C1 at the concrete menu of `service_menu.py`, row 0. -/
theorem claim1_witness :
    menuLoopStep sysOk ⟨_build_menu, 0, false⟩ KEY_UP =
      .ok (⟨_build_menu, 0, false⟩, false, none, [.drawMenu 0, .getKey]) ∧
    menuLoopStep sysOk ⟨_build_menu, 0, false⟩ KEY_DOWN =
      .ok (⟨_build_menu, 1, false⟩, false, none, [.drawMenu 0, .getKey]) := by
  have h := claim1_up_down_bounds sysOk _build_menu 0 (by decide) (by decide) (by decide)
  refine ⟨?_, ?_⟩
  · simpa using h.1
  · simpa using h.2.1

/-- Claim C4: pressing Enter (curses `KEY_ENTER` or newline) while the
selected item is labelled `Exit` exits the loop without invoking any action;
in particular the Exit item's own callable is never invoked. -/
theorem claim4_exit_entry (sys : List String → ExecOutcome)
    (menu : List MenuItem) (row : Int) (item : MenuItem) (key : Int)
    (hi : pyIndex menu row = some item) (hl : item.label = "Exit")
    (hk : key = KEY_ENTER ∨ key = 10) :
    menuLoopStep sys ⟨menu, row, false⟩ key =
      .ok (⟨menu, row, false⟩, true, none, [.drawMenu row, .getKey]) ∧
    ∀ ks : List Int, run_menu_keys sys ⟨menu, row, false⟩ (key :: ks) =
      .ok (⟨menu, row, false⟩, true, []) := by
  have hstep : menuLoopStep sys ⟨menu, row, false⟩ key =
      .ok (⟨menu, row, false⟩, true, none, [.drawMenu row, .getKey]) := by
    rcases hk with rfl | rfl <;>
      simp [menuLoopStep, KEY_UP, KEY_DOWN, KEY_ENTER, hi, hl]
  refine ⟨hstep, fun ks => ?_⟩
  rw [run_menu_keys, hstep]
  rfl

/-- Witness for C4 at the concrete menu of `service_menu.py`: the `Exit`
entry sits at index 12 and Enter there exits without any invocation. -/
theorem claim4_witness :
    run_menu_keys sysOk ⟨_build_menu, 12, false⟩ [KEY_ENTER] =
      .ok (⟨_build_menu, 12, false⟩, true, []) :=
  (claim4_exit_entry sysOk _build_menu 12 ⟨"Exit", .noop⟩ KEY_ENTER
    (by decide) rfl (Or.inl rfl)).2 []

/-- Claim C5: pressing Escape (key code 27) in the displaying state exits the
loop, whatever row is currently selected. -/
theorem claim5_escape_exits (sys : List String → ExecOutcome)
    (menu : List MenuItem) (row : Int) :
    menuLoopStep sys ⟨menu, row, false⟩ 27 =
      .ok (⟨menu, row, false⟩, true, none, [.drawMenu row, .getKey]) ∧
    ∀ ks : List Int, run_menu_keys sys ⟨menu, row, false⟩ (27 :: ks) =
      .ok (⟨menu, row, false⟩, true, []) := by
  have hstep : menuLoopStep sys ⟨menu, row, false⟩ 27 =
      .ok (⟨menu, row, false⟩, true, none, [.drawMenu row, .getKey]) := by
    simp [menuLoopStep, KEY_UP, KEY_DOWN, KEY_ENTER]
  refine ⟨hstep, fun ks => ?_⟩
  rw [run_menu_keys, hstep]
  rfl

/-- Claim C9: any key other than Up, Down, Enter (curses `KEY_ENTER` or
newline) and Escape leaves the selection unchanged, invokes no action, and
stays in the displaying state. -/
theorem claim9_other_keys_noop (sys : List String → ExecOutcome)
    (menu : List MenuItem) (row : Int) (key : Int)
    (hu : key ≠ KEY_UP) (hd : key ≠ KEY_DOWN) (he : key ≠ KEY_ENTER)
    (hnl : key ≠ 10) (hesc : key ≠ 27) :
    menuLoopStep sys ⟨menu, row, false⟩ key =
      .ok (⟨menu, row, false⟩, false, none, [.drawMenu row, .getKey]) := by
  simp [menuLoopStep, hu, hd, he, hnl, hesc]

/-- Witness for C9 at the key code of the letter `x`. -/
theorem claim9_witness :
    menuLoopStep sysOk ⟨_build_menu, 0, false⟩ 120 =
      .ok (⟨_build_menu, 0, false⟩, false, none, [.drawMenu 0, .getKey]) :=
  claim9_other_keys_noop sysOk _build_menu 0 120 (by decide) (by decide)
    (by decide) (by decide) (by decide)

end ServiceMenu
namespace ServiceMenu

theorem run_command_exited (sys : List String → ExecOutcome) (command : List String)
    (c : Nat) (h : sys command = .exited c) :
    run_command sys command =
      .ok (if c = 0 then [] else ["Command failed: " ++ cpeStr c command]) := by
  unfold run_command subprocess_run_check
  rw [h]
  by_cases hc : c = 0 <;> simp [hc]

/-- Claim C2: when the child process exits with a non-zero status,
`run_command` catches the failure, prints one message that contains both the
command and the failure detail (the exit status), and returns normally. -/
theorem claim2_run_command_nonzero (sys : List String → ExecOutcome)
    (command : List String) (c : Nat)
    (h : sys command = .exited c) (hc : c ≠ 0) :
    run_command sys command =
      .ok ["Command failed: " ++ cpeStr c command] ∧
    (pyListRepr command).data <:+: ("Command failed: " ++ cpeStr c command).data ∧
    (toString c).data <:+: ("Command failed: " ++ cpeStr c command).data := by
  refine ⟨?_, ?_, ?_⟩
  · rw [run_command_exited sys command c h, if_neg hc]
  · refine ⟨("Command failed: ".data ++ ("Command \x27").data),
      (("\x27 returned non-zero exit status " ++ toString c ++ ".").data), ?_⟩
    simp [cpeStr, String.data_append, List.append_assoc]
  · refine ⟨("Command failed: ".data ++ (("Command \x27" ++ pyListRepr command)
        ++ "\x27 returned non-zero exit status ").data), (".".data), ?_⟩
    simp [cpeStr, String.data_append, List.append_assoc]

/-- Witness for C2: the spec's own example, the command `["false"]`, on an
operating system where every command exits with status 1. -/
theorem claim2_witness :
    run_command sysFail ["false"] =
      .ok ["Command failed: Command \x27[\x27false\x27]\x27 returned non-zero exit status 1."] := by
  have h := claim2_run_command_nonzero sysFail ["false"] 1 rfl (by decide)
  simpa [cpeStr, pyListRepr, pyStrRepr] using h.1

/-- Counterexample to claim C3 as stated: when the named executable does not
exist, `subprocess.run` raises `FileNotFoundError`, which `run_command` does
not catch, so an error does reach the caller. -/
theorem claim3_counterexample :
    run_command sysNotFound ["definitely-missing-binary"] =
      .error .fileNotFoundError := rfl

/-- Claim C3 as amended: child-process failure (non-zero exit) is caught at
the point of invocation and never reaches the caller — whenever the command
actually runs, `run_command` returns normally — but when the named executable
does not exist the `FileNotFoundError` propagates to the caller. -/
theorem claim3_amended_propagation (sys : List String → ExecOutcome)
    (command : List String) :
    (∀ (c : Nat) (cmd : List String),
      run_command sys command ≠ .error (.calledProcessError c cmd)) ∧
    (∀ c : Nat, sys command = .exited c →
      ∃ out : List String, run_command sys command = .ok out) ∧
    (sys command = .notFound →
      run_command sys command = .error .fileNotFoundError) := by
  refine ⟨?_, ?_, ?_⟩
  · intro c cmd hcontra
    rcases hs : sys command with c2 | _
    · rw [run_command_exited sys command c2 hs] at hcontra
      exact Except.noConfusion hcontra
    · unfold run_command subprocess_run_check at hcontra
      rw [hs] at hcontra
      dsimp only at hcontra
      cases hcontra
  · intro c hs
    exact ⟨_, run_command_exited sys command c hs⟩
  · intro hs
    unfold run_command subprocess_run_check
    rw [hs]

/-- Witness for the amended C3: a command that exits with status 1 returns
normally, while the same helper shows the missing-executable case errors. -/
theorem claim3_witness :
    (∃ out : List String, run_command sysFail ["false"] = .ok out) ∧
    run_command sysNotFound ["nope"] = .error .fileNotFoundError :=
  ⟨(claim3_amended_propagation sysFail ["false"]).2.1 1 rfl,
   (claim3_amended_propagation sysNotFound ["nope"]).2.2 rfl⟩

end ServiceMenu
namespace ServiceMenu

/-- Claim C6: pressing Enter on a non-Exit item performs, in order: clear the
screen, print the running indicator containing the label, refresh, invoke the
item's action synchronously, print the "press any key" prompt; the loop then
blocks for exactly one acknowledgment keypress and returns to the displaying
state with the same selection — also when the action's underlying command
exits with a non-zero status, which does not crash or end the loop. -/
theorem claim6_enter_runs_action (sys : List String → ExecOutcome)
    (menu : List MenuItem) (row : Int) (item : MenuItem) (key : Int)
    (command : List String) (c : Nat)
    (hi : pyIndex menu row = some item) (hl : item.label ≠ "Exit")
    (hk : key = KEY_ENTER ∨ key = 10)
    (ha : item.action = .runCmd command) (hc : sys command = .exited c) :
    menuLoopStep sys ⟨menu, row, false⟩ key =
      .ok (⟨menu, row, true⟩, false, some row,
        [.drawMenu row, .getKey, .clearScreen,
         .addstr 0 0 ("Running: " ++ item.label ++ "\n"), .refreshScreen,
         .invokeAction row, .addstr 2 0 "Press any key to return to menu"]) ∧
    (∀ ack : Int, menuLoopStep sys ⟨menu, row, true⟩ ack =
      .ok (⟨menu, row, false⟩, false, none, [.getKey])) ∧
    (∀ (ack : Int) (ks : List Int),
      run_menu_keys sys ⟨menu, row, false⟩ (key :: ack :: ks) =
        (run_menu_keys sys ⟨menu, row, false⟩ ks).map
          (fun r => (r.1, r.2.1, row :: r.2.2))) := by
  have hexec : item.action.exec sys =
      .ok (if c = 0 then [] else ["Command failed: " ++ cpeStr c command]) := by
    rw [ha]
    exact run_command_exited sys command c hc
  have hstep : menuLoopStep sys ⟨menu, row, false⟩ key =
      .ok (⟨menu, row, true⟩, false, some row,
        [.drawMenu row, .getKey, .clearScreen,
         .addstr 0 0 ("Running: " ++ item.label ++ "\n"), .refreshScreen,
         .invokeAction row, .addstr 2 0 "Press any key to return to menu"]) := by
    rcases hk with rfl | rfl <;>
      simp [menuLoopStep, KEY_UP, KEY_DOWN, KEY_ENTER, hi, hl, hexec]
  have hack : ∀ ack : Int, menuLoopStep sys ⟨menu, row, true⟩ ack =
      .ok (⟨menu, row, false⟩, false, none, [.getKey]) := by
    intro ack
    simp [menuLoopStep]
  refine ⟨hstep, hack, fun ack ks => ?_⟩
  rw [run_menu_keys, hstep]
  dsimp only
  rw [run_menu_keys, hack ack]
  dsimp only
  rcases hr : run_menu_keys sys ⟨menu, row, false⟩ ks with e | ⟨s3, ex2, invs⟩ <;>
    simp [hr, Except.map]

/-- Witness for C6: Enter on row 0 of the concrete menu under an operating
system where every command exits with status 1, acknowledged with Escape. -/
theorem claim6_witness :
    run_menu_keys sysFail ⟨_build_menu, 0, false⟩ [KEY_ENTER, 27] =
      .ok (⟨_build_menu, 0, false⟩, false, [0]) := by
  have h := claim6_enter_runs_action sysFail _build_menu 0
    ⟨"Generate TLS certificates", generate_tls⟩ KEY_ENTER
    ["echo", "Generating TLS certificates..."] 1 (by decide) (by decide)
    (Or.inl rfl) rfl rfl
  have h3 := h.2.2 27 []
  rw [run_menu_keys] at h3
  simpa using h3

/-- Claim C10: after a non-Exit action finishes, the acknowledgment keypress
is consumed whatever key it is — Escape and the arrow keys included — and the
loop resumes displaying with the very selection it had when Enter was
pressed; the acknowledgment key neither exits the loop nor moves the
selection. -/
theorem claim10_ack_any_key (sys : List String → ExecOutcome)
    (menu : List MenuItem) (row : Int) (item : MenuItem)
    (out : List String) (ack : Int) (ks : List Int)
    (hi : pyIndex menu row = some item) (hl : item.label ≠ "Exit")
    (ha : item.action.exec sys = .ok out) :
    menuLoopStep sys ⟨menu, row, true⟩ ack =
      .ok (⟨menu, row, false⟩, false, none, [.getKey]) ∧
    run_menu_keys sys ⟨menu, row, false⟩ (KEY_ENTER :: ack :: ks) =
      (run_menu_keys sys ⟨menu, row, false⟩ ks).map
        (fun r => (r.1, r.2.1, row :: r.2.2)) := by
  have hack : menuLoopStep sys ⟨menu, row, true⟩ ack =
      .ok (⟨menu, row, false⟩, false, none, [.getKey]) := by
    simp [menuLoopStep]
  have hstep : menuLoopStep sys ⟨menu, row, false⟩ KEY_ENTER =
      .ok (⟨menu, row, true⟩, false, some row,
        [.drawMenu row, .getKey, .clearScreen,
         .addstr 0 0 ("Running: " ++ item.label ++ "\n"), .refreshScreen,
         .invokeAction row, .addstr 2 0 "Press any key to return to menu"]) := by
    simp [menuLoopStep, KEY_UP, KEY_DOWN, KEY_ENTER, hi, hl, ha]
  refine ⟨hack, ?_⟩
  rw [run_menu_keys, hstep]
  dsimp only
  rw [run_menu_keys, hack]
  dsimp only
  rcases hr : run_menu_keys sys ⟨menu, row, false⟩ ks with e | ⟨s3, ex2, invs⟩ <;>
    simp [hr, Except.map]

/-- Witness for C10: the acknowledgment key Escape is swallowed — two
Escapes after Enter leave one Escape to actually exit the loop. -/
theorem claim10_witness :
    run_menu_keys sysOk ⟨_build_menu, 0, false⟩ [KEY_ENTER, 27, 27] =
      .ok (⟨_build_menu, 0, false⟩, true, [0]) := by
  have h := claim10_ack_any_key sysOk _build_menu 0
    ⟨"Generate TLS certificates", generate_tls⟩ [] 27 [27]
    (by decide) (by decide) rfl
  rw [h.2]
  rfl

/-- Claim C7: over one session the item list is never changed by any
transition of the loop, and the selection index moves only on an Up or Down
key in the displaying state. -/
theorem claim7_menu_frame (sys : List String → ExecOutcome)
    (s : LoopState) (ks : List Int) :
    (∀ (s2 : LoopState) (ex : Bool) (inv : List Int),
      run_menu_keys sys s ks = .ok (s2, ex, inv) → s2.menu = s.menu) ∧
    (∀ (key : Int) (s2 : LoopState) (ex : Bool) (inv : Option Int)
        (eff : List Effect),
      menuLoopStep sys s key = .ok (s2, ex, inv, eff) →
      s2.current_row ≠ s.current_row →
      key = KEY_UP ∨ key = KEY_DOWN) := by
  refine ⟨fun s2 ex inv h => run_menu_keys_menu_eq sys ks s s2 ex inv h, ?_⟩
  intro key s2 ex inv eff h hne
  unfold menuLoopStep at h
  split_ifs at h with hAck hUp hDown hEnter hEsc
  · cases h; exact absurd rfl hne
  · exact Or.inl hUp.1
  · exact Or.inr hDown.1
  · split at h
    · exact Except.noConfusion h
    · split_ifs at h with hExit
      · cases h; exact absurd rfl hne
      · split at h
        · exact Except.noConfusion h
        · cases h; exact absurd rfl hne
  · cases h; exact absurd rfl hne
  · cases h; exact absurd rfl hne

/-- Witness for C7: a session pressing Down then Enter then an
acknowledgment leaves the menu list untouched. -/
theorem claim7_witness :
    (⟨_build_menu, 1, false⟩ : LoopState).menu = run_menu_init.menu :=
  (claim7_menu_frame sysOk run_menu_init [KEY_DOWN, KEY_ENTER, 120]).1
    ⟨_build_menu, 1, false⟩ false [1] (by rfl)

end ServiceMenu
namespace ServiceMenu

theorem pyInStr_iff (needle hay : List Char) :
    pyInStr needle hay = true ↔ needle <:+: hay := by
  induction hay with
  | nil =>
    simp only [pyInStr, List.isEmpty_iff, List.infix_nil]
  | cons c rest ih =>
    simp only [pyInStr, Bool.or_eq_true, List.isPrefixOf_iff_prefix, ih,
      List.infix_cons_iff]

/-- Claim C8: the standalone test `test_caddyfile_uses_cloudflare_dns` passes
exactly when the text of the file `Caddyfile` contains the substring
`dns cloudflare`, and its verdict depends on no file other than `Caddyfile`. -/
theorem claim8_caddyfile_test (fs : String → Option String) (contents : String)
    (h : fs "Caddyfile" = some contents) :
    (test_caddyfile_uses_cloudflare_dns fs = .ok () ↔
      "dns cloudflare".data <:+: contents.data) ∧
    (∀ fs2 : String → Option String, fs2 "Caddyfile" = fs "Caddyfile" →
      test_caddyfile_uses_cloudflare_dns fs2 =
        test_caddyfile_uses_cloudflare_dns fs) := by
  constructor
  · unfold test_caddyfile_uses_cloudflare_dns
    rw [h]
    dsimp only
    by_cases hin : pyInStr "dns cloudflare".data contents.data
    · rw [if_pos hin]
      simp only [true_iff]
      exact (pyInStr_iff _ _).mp hin
    · rw [if_neg hin]
      constructor
      · intro hcontra
        exact Except.noConfusion hcontra
      · intro hinf
        exact absurd ((pyInStr_iff _ _).mpr hinf) hin
  · intro fs2 h2
    unfold test_caddyfile_uses_cloudflare_dns
    rw [h2]

end ServiceMenu
namespace ServiceMenu

/-- Witness for C8: a Caddyfile text with the directive passes the test. -/
theorem claim8_witness :
    test_caddyfile_uses_cloudflare_dns
      (fun n => if n = "Caddyfile" then some "example.com \x7b\n  tls \x7b\n    dns cloudflare\n  \x7d\n\x7d\n" else none) = .ok () :=
  (claim8_caddyfile_test
    (fun n => if n = "Caddyfile" then some "example.com \x7b\n  tls \x7b\n    dns cloudflare\n  \x7d\n\x7d\n" else none)
    "example.com \x7b\n  tls \x7b\n    dns cloudflare\n  \x7d\n\x7d\n" rfl).1.mpr
    ⟨"example.com \x7b\n  tls \x7b\n    ".data, "\n  \x7d\n\x7d\n".data, by decide⟩

end ServiceMenu
namespace ServiceMenu

/-- Witness for C5: Escape exits from row 3 of the concrete menu. -/
theorem claim5_witness :
    run_menu_keys sysOk ⟨_build_menu, 3, false⟩ [27] =
      .ok (⟨_build_menu, 3, false⟩, true, []) :=
  (claim5_escape_exits sysOk _build_menu 3).2 []

end ServiceMenu
